import Mathlib

/-!
Shallow embedding of the seeubot/123s bot (src/main.py and src/bot.py) and
proofs about its provider fallback, workflow state machine, publish pipeline,
broadcast fan-out and administrative cleanup.

Modelling conventions:
* External collaborators (the Telegram transport, the HTTP client, the frame
  extractor, MongoDB) are modelled by explicit outcome parameters: each
  handler takes the outcomes the collaborators would produce and returns the
  new state together with the ordered trace of its observable effects.
* Filesystem paths are component lists (a path is a List String); the set of
  existing files is a List Path.
* Python floats used for thumbnail positions are modelled as rationals; the
  positions and percentage bounds appearing in the source are exactly
  representable, so no floating-point rounding is involved in any claim.
* Message strings follow the source text, with apostrophes dropped and
  interpolated runtime values elided; time-based progress-message cadence is
  elided (it changes no state and no claim depends on it).
-/

namespace Bot123

/-- Which upstream provider answered a resolution request
(src/main.py lines 35-36: PRIMARY_API_URL / FALLBACK_API_URL). -/
inductive Provider
  | primary
  | fallback
deriving DecidableEq

/-- The payload of a successful provider response (src/main.py lines 605-607:
downloadLink, size, filename fields of the JSON data object). -/
structure VideoData where
  downloadLink : Option String
  size : Nat
  filename : String
deriving DecidableEq

/-- Outcome of one HTTP request to a provider inside fetch_video
(src/main.py lines 212-229): a JSON body with success == True, a JSON body
without it (structurally unsuccessful), a requests timeout, or any other
exception. -/
inductive ApiOutcome
  | ok (d : VideoData)
  | bad
  | timeout
  | err
deriving DecidableEq

/-- Observable events of fetch_video: an HTTP call to a provider with its
outcome, or a time.sleep of the given number of seconds. -/
inductive FetchEv
  | call (p : Provider) (o : ApiOutcome)
  | sleep (secs : Nat)
deriving DecidableEq

/-- The per-provider retry loop of fetch_video (src/main.py lines 210-229 for
the primary, 233-252 for the fallback).  `api i` is the outcome of the i-th
HTTP request to this provider; `r` is the remaining retry budget
(primary_retries / fallback_retries).  A success returns the data; a
structurally unsuccessful body or a non-timeout exception breaks out at once;
a timeout decrements the budget and, when budget remains, sleeps 2 seconds
and retries. -/
def apiLoop (api : Nat → ApiOutcome) (p : Provider) : Nat → Nat → Option VideoData × List FetchEv
  | 0, _ => (none, [])
  | r + 1, i =>
    match api i with
    | .ok d => (some d, [.call p (.ok d)])
    | .bad => (none, [.call p .bad])
    | .err => (none, [.call p .err])
    | .timeout =>
      if r = 0 then (none, [.call p .timeout])
      else
        let rest := apiLoop api p r (i + 1)
        (rest.1, .call p .timeout :: .sleep 2 :: rest.2)

/-- The dictionary returned by fetch_video (src/main.py lines 218, 241, 254). -/
structure FetchResult where
  success : Bool
  data : Option VideoData
  source : Option Provider
  error : Option String
deriving DecidableEq

/-- fetch_video (src/main.py lines 209-254): run the primary retry loop;
only if it produced no success, run the fallback retry loop; if both fail,
return the single failure value with no data.  The second component is the
ordered trace of HTTP calls and sleeps. -/
def fetch_video (primaryApi fallbackApi : Nat → ApiOutcome) (max_retries : Nat) :
    FetchResult × List FetchEv :=
  match apiLoop primaryApi .primary max_retries 0 with
  | (some d, ptr) => (⟨true, some d, some .primary, none⟩, ptr)
  | (none, ptr) =>
    match apiLoop fallbackApi .fallback max_retries 0 with
    | (some d, ftr) => (⟨true, some d, some .fallback, none⟩, ptr ++ ftr)
    | (none, ftr) =>
      (⟨false, none, none, some "Both APIs failed to fetch the video"⟩, ptr ++ ftr)

/-- The provider-call outcomes of a fetch trace, in order. -/
def callOutcomes (tr : List FetchEv) : List ApiOutcome :=
  tr.filterMap fun e =>
    match e with
    | .call _ o => some o
    | .sleep _ => none

/-- One recipient document of the users collection as broadcast_message reads
it (src/main.py lines 293-304): its userId field (absent or 0 is falsy in
Python, so such documents are silently skipped) and whether bot.send_message
to it succeeds. -/
structure UserDoc where
  userId : Option Nat
  sendOk : Bool
deriving DecidableEq

/-- Observable events of broadcast_message: a send_message attempt to a
recipient with its outcome, or the NameError raised by the inter-batch
statement `await asyncio.sleep(delay)` (src/main.py line 310) — main.py
never imports asyncio (lines 1-17), so evaluating that statement raises
NameError instead of sleeping. -/
inductive BEv
  | send (uid : Nat) (ok : Bool)
  | nameError
deriving DecidableEq

/-- The inner per-batch loop of broadcast_message (src/main.py lines 292-304
and 313-324): attempt a send to every document whose userId is truthy,
counting successes and failures; an exception on one recipient only
increments the failure count. Returns (successes, failures, trace). -/
def processBatch : List UserDoc → Nat × Nat × List BEv
  | [] => (0, 0, [])
  | u :: rest =>
    let r := processBatch rest
    match u.userId with
    | some uid =>
      if uid = 0 then r
      else if u.sendOk then (r.1 + 1, r.2.1, .send uid true :: r.2.2)
      else (r.1, r.2.1 + 1, .send uid false :: r.2.2)
    | none => r

/-- The batching loop of broadcast_message (src/main.py lines 283-324):
users are accumulated into `batch`; once the batch reaches batch_size it is
processed (all its sends, with per-recipient failure isolation) and the loop
then executes `await asyncio.sleep(delay)` (line 310) — but asyncio is never
imported in main.py, so that statement raises NameError, which no handler in
broadcast_message catches: the loop aborts there and no later recipient is
attempted.  The remainder loop (lines 313-324) is reached only when no batch
ever filled.  The final Bool records whether the NameError was raised;
`delay` is never slept on. -/
def bmLoop (batch_size delay : Nat) :
    List UserDoc → List UserDoc → Nat × Nat × List BEv × Bool
  | batch, [] =>
    let pb := processBatch batch
    (pb.1, pb.2.1, pb.2.2, false)
  | batch, u :: rest =>
    let batch' := batch ++ [u]
    if batch_size ≤ batch'.length then
      let pb := processBatch batch'
      (pb.1, pb.2.1, pb.2.2 ++ [.nameError], true)
    else
      bmLoop batch_size delay batch' rest

/-- The aggregate dictionary returned by broadcast_message
(src/main.py lines 328-333) when it returns at all. -/
structure BroadcastResult where
  success : Bool
  total : Nat
  sent : Nat
  failed : Nat
deriving DecidableEq

/-- broadcast_message (src/main.py lines 273-333), on the path where the
database is connected: `users` is the cursor enumeration and total is
count_documents.  When the batching loop raises NameError (any run in which
a batch fills), the exception propagates out of broadcast_message — its
caller broadcast_command (line 461) does not catch it either — so no
aggregate dictionary is ever returned: the result is none.  Only a run whose
input never fills a batch reaches the return at lines 328-333.  The call
site broadcast_command uses batch_size = 100 and delay = 1. -/
def broadcast_message (users : List UserDoc) (batch_size delay : Nat) :
    Option BroadcastResult × List BEv :=
  let r := bmLoop batch_size delay [] users
  if r.2.2.2 then (none, r.2.2.1)
  else (some ⟨true, users.length, r.1, r.2.1⟩, r.2.2.1)

/-! ## src/bot.py: configuration constants and data model -/

/-- ADMIN_USER_ID (src/bot.py line 37, default value). -/
def ADMIN_USER_ID : Nat := 1352497419

/-- MAX_FILE_SIZE in bytes: 1 GiB (src/bot.py line 44). -/
def MAX_FILE_SIZE : Nat := 1024 * 1024 * 1024

/-- MOVIES_CHANNEL (src/bot.py line 28, default value). -/
def MOVIES_CHANNEL : String := "@diskmoviee"

/-- STUFF_CHANNEL (src/bot.py line 29, default value). -/
def STUFF_CHANNEL : String := "@dailydiskwala"

/-- TEMP_FOLDER (src/bot.py line 51). -/
def TEMP_FOLDER : String := "temp"

/-- CALLBACK_MOVIES (src/bot.py line 62). -/
def CALLBACK_MOVIES : String := "channel_movies"

/-- CALLBACK_STUFF (src/bot.py line 63). -/
def CALLBACK_STUFF : String := "channel_stuff"

/-- Conversation states (src/bot.py lines 55-59) and ConversationHandler.END
(the integer -1 in python-telegram-bot), as the Int a handler returns. -/
def WAITING_FOR_URL : Int := 0

/-- Conversation state WAITING_FOR_CAPTION (src/bot.py line 56). -/
def WAITING_FOR_CAPTION : Int := 1

/-- Conversation state WAITING_FOR_CHANNEL_SELECTION (src/bot.py line 57). -/
def WAITING_FOR_CHANNEL_SELECTION : Int := 2

/-- Conversation state WAITING_FOR_THUMBNAIL_SELECTION (src/bot.py line 58). -/
def WAITING_FOR_THUMBNAIL_SELECTION : Int := 3

/-- Conversation state WAITING_FOR_BROADCAST_MESSAGE (src/bot.py line 59). -/
def WAITING_FOR_BROADCAST_MESSAGE : Int := 4

/-- ConversationHandler.END: the sentinel -1 of python-telegram-bot. -/
def END : Int := -1

/-- A filesystem path as its list of components; os.path.join appends a
component, os.path.dirname drops the last one. -/
abbrev Path := List String

/-- One value of the user_data dictionary (src/bot.py line 68): the per-user
session.  Keys that the source adds lazily are Option / empty-list valued;
the key waiting_for_custom_thumbnail (set at line 726, popped at line 795)
is a Bool. -/
structure Session where
  video_path : Option Path
  thumbnails : List Path
  thumbnail_path : Option Path
  url : Option String
  caption : Option String
  waiting_for_custom_thumbnail : Bool
deriving DecidableEq

/-- The user_data dictionary: user id to session, as an association list. -/
abbrev UserData := List (Nat × Session)

/-- Dictionary lookup user_data[user_id] / `user_id in user_data`. -/
def lookupUser (ud : UserData) (uid : Nat) : Option Session :=
  (ud.find? fun kv => decide (kv.1 = uid)).map Prod.snd

/-- Dictionary assignment user_data[user_id] = s. -/
def setUser (ud : UserData) (uid : Nat) (s : Session) : UserData :=
  match ud with
  | [] => [(uid, s)]
  | kv :: rest => if kv.1 = uid then (uid, s) :: rest else kv :: setUser rest uid s

/-- Dictionary deletion `del user_data[user_id]`. -/
def delUser (ud : UserData) (uid : Nat) : UserData :=
  ud.filter fun kv => decide (kv.1 ≠ uid)

/-- One post_history entry (src/bot.py lines 143-149). -/
structure PostEntry where
  timestamp : String
  channel : String
  caption : String
  url : String
  thumbnail_path : Option Path
deriving DecidableEq

/-- The global mutable state of src/bot.py: the user_data dictionary
(line 68), the post_history list (line 69), and the set of existing files. -/
structure BotState where
  user_data : UserData
  post_history : List PostEntry
  files : List Path
deriving DecidableEq

/-- Observable events of the bot.py handlers, in the order they occur:
callback-query answer, replies and message edits to the operator, a photo
reply, the single outbound channel post (bot.send_photo at lines 972-977),
session persistence (save_session), post-history persistence
(save_post_history), file deletion, a downloaded chunk write, and a frame
extraction at a relative position with its outcome. -/
inductive Ev
  | answer
  | reply (text : String)
  | replyPhoto (photo : Path) (caption : String)
  | editMessage (text : String)
  | sendPost (channel : String) (photo : Path) (caption : String) (url : String)
  | persist (ud : UserData)
  | persistHistory (ph : List PostEntry)
  | deleteFile (p : Path)
  | write (bytes : Nat)
  | extract (pos : ℚ) (ok : Bool)
deriving DecidableEq

/-- os.remove: drop a path from the existing files. -/
def removeFile (fs : List Path) (p : Path) : List Path :=
  fs.filter fun q => decide (q ≠ p)

/-- shutil.rmtree: drop every file below a directory. -/
def rmtree (fs : List Path) (dir : Path) : List Path :=
  fs.filter fun q => decide (¬ dir <+: q)

/-- try_delete_file (src/bot.py lines 851-858): delete the file if the
argument is non-None and the file exists, ignoring errors; reports the
deletion event when it happens. -/
def try_delete_file (fs : List Path) (p : Option Path) : List Path × List Ev :=
  match p with
  | none => (fs, [])
  | some q => if q ∈ fs then (removeFile fs q, [.deleteFile q]) else (fs, [])

/-- The `for thumb_path in thumbnails: try_delete_file(...)` loop of cancel
(src/bot.py lines 473-475). -/
def deleteAll (fs : List Path) : List Path → List Path × List Ev
  | [] => (fs, [])
  | p :: rest =>
    let r1 := try_delete_file fs (some p)
    let r2 := deleteAll r1.1 rest
    (r2.1, r1.2 ++ r2.2)

/-- The cleanup loop of select_channel_and_post (src/bot.py lines 993-996):
delete every candidate thumbnail except the selected one. -/
def deleteAllExcept (fs : List Path) (keep : Path) : List Path → List Path × List Ev
  | [] => (fs, [])
  | p :: rest =>
    if p = keep then deleteAllExcept fs keep rest
    else
      let r1 := try_delete_file fs (some p)
      let r2 := deleteAllExcept r1.1 keep rest
      (r2.1, r1.2 ++ r2.2)

/-- The durable history thumbnail directory os.path.join(TEMP_FOLDER,
"history") (src/bot.py line 129). -/
def historyDir : Path := [TEMP_FOLDER, "history"]

/-- add_to_post_history (src/bot.py lines 123-154): if a thumbnail path is
given and the file exists, copy it into TEMP_FOLDER/history (`ts` stands for
the timestamp used both in the entry and the copied file name; `copyOk`
models whether shutil.copy2 succeeds — on failure the entry records no
thumbnail); append the entry and persist the history. -/
def add_to_post_history (st : BotState) (channel caption url : String)
    (thumbnail_path : Option Path) (ts : String) (copyOk : Bool) :
    BotState × List Ev :=
  let savedPath : Option Path :=
    match thumbnail_path with
    | none => none
    | some p =>
      if p ∈ st.files ∧ copyOk = true then
        some (historyDir ++ ["thumb_" ++ ts ++ ".jpg"])
      else none
  let fs' := match savedPath with
    | some sp => sp :: st.files
    | none => st.files
  let entry : PostEntry := ⟨ts, channel, caption, url, savedPath⟩
  let ph := st.post_history ++ [entry]
  ({ st with post_history := ph, files := fs' }, [.persistHistory ph])

/-! ## src/bot.py: conversation handlers -/

/-- The reply of check_admin on an unauthorized message sender
(src/bot.py lines 161-164). -/
def notAdminMsg : String :=
  "Sorry, you are not authorized to use this bot. This bot is only for admin use."

/-- The follow-up prompt asking for the post URL (src/bot.py lines 746
and 806). -/
def urlPromptMsg : String :=
  "Great! Now please enter the URL you want to link to in the post:"

/-- cancel (src/bot.py lines 459-485): after the admin check, if the sender
has a live session delete its video file, every candidate thumbnail and the
selected thumbnail, remove the user_data entry and persist; in every case
reply that the operation is cancelled and end the conversation. -/
def cancel (st : BotState) (uid : Nat) : BotState × List Ev × Int :=
  if uid ≠ ADMIN_USER_ID then (st, [.reply notAdminMsg], END)
  else
    match lookupUser st.user_data uid with
    | none => (st, [.reply "Operation cancelled."], END)
    | some sess =>
      let r1 := try_delete_file st.files sess.video_path
      let r2 := deleteAll r1.1 sess.thumbnails
      let r3 := try_delete_file r2.1 sess.thumbnail_path
      let ud := delUser st.user_data uid
      ({ st with user_data := ud, files := r3.1 },
       r1.2 ++ r2.2 ++ r3.2 ++ [.persist ud, .reply "Operation cancelled."],
       END)

/-- select_channel_and_post (src/bot.py lines 919-1013).  `cbdata` is the
callback payload, `transportOk` models whether bot.send_photo succeeds,
`ts` the publish timestamp and `copyOk` whether the history thumbnail copy
succeeds.  On success: send the post, append it to history, reply to the
admin, delete the video and the non-selected thumbnails, delete the
user_data entry and persist, then end.  On transport failure: report the
error and end, touching nothing. -/
def select_channel_and_post (st : BotState) (uid : Nat) (cbdata : String)
    (transportOk : Bool) (ts : String) (copyOk : Bool) :
    BotState × List Ev × Int :=
  if uid ≠ ADMIN_USER_ID then
    (st, [.answer, .editMessage "You are not authorized to use this bot."], END)
  else
    match lookupUser st.user_data uid with
    | none =>
      (st, [.answer, .editMessage "Sorry, there was an error. Please start over."], END)
    | some sess =>
      let channelOpt : Option String :=
        if cbdata = CALLBACK_MOVIES then some MOVIES_CHANNEL
        else if cbdata = CALLBACK_STUFF then some STUFF_CHANNEL
        else none
      match channelOpt with
      | none =>
        (st, [.answer, .editMessage "Invalid channel selection. Please try again."],
         WAITING_FOR_CHANNEL_SELECTION)
      | some channel =>
        match sess.thumbnail_path, sess.url, sess.caption with
        | some thumb, some url, some caption =>
          if transportOk then
            let h := add_to_post_history st channel caption url (some thumb) ts copyOk
            let d1 := try_delete_file h.1.files sess.video_path
            let d2 := deleteAllExcept d1.1 thumb sess.thumbnails
            let ud := delUser st.user_data uid
            ({ h.1 with user_data := ud, files := d2.1 },
             [.answer, .editMessage "Sending post to channel...",
              .sendPost channel thumb caption url] ++ h.2 ++
              [.reply ("Post successfully sent to " ++ channel ++ "!")] ++
              d1.2 ++ d2.2 ++ [.persist ud],
             END)
          else
            (st, [.answer, .editMessage "Sending post to channel...",
                  .editMessage "Sorry, there was an error posting to the channel. Please try again or contact the developer."],
             END)
        | _, _, _ =>
          (st, [.answer, .editMessage "Missing required data. Please start over."], END)

/-- The parsed form of a thumbnail-selection callback payload
(src/bot.py lines 719-753): the custom-position request, a payload
thumbnail_i with integer i, a payload starting with thumbnail_ whose suffix
is not an integer (the ValueError branch), or anything else. -/
inductive ThumbCb
  | custom
  | thumb (i : Nat)
  | badIndex
  | other
deriving DecidableEq

/-- select_thumbnail (src/bot.py lines 700-757).  In the regular-selection
branch the session mutation (line 742) happens first, then the follow-up
prompt is edited in (line 746), and only then is the session persisted
(line 747). -/
def select_thumbnail (st : BotState) (uid : Nat) (cb : ThumbCb) :
    BotState × List Ev × Int :=
  if uid ≠ ADMIN_USER_ID then
    (st, [.answer, .editMessage "You are not authorized to use this bot."], END)
  else
    match lookupUser st.user_data uid with
    | none =>
      (st, [.answer, .editMessage "Sorry, there was an error. Please start over."], END)
    | some sess =>
      match cb with
      | .custom =>
        let sess' := { sess with waiting_for_custom_thumbnail := true }
        let ud := setUser st.user_data uid sess'
        ({ st with user_data := ud },
         [.answer, .editMessage "Please enter a position for the thumbnail (0-100).",
          .persist ud],
         WAITING_FOR_THUMBNAIL_SELECTION)
      | .thumb i =>
        match sess.thumbnails[i]? with
        | none =>
          (st, [.answer, .editMessage "Invalid thumbnail selection. Please try again."],
           WAITING_FOR_THUMBNAIL_SELECTION)
        | some selected =>
          let sess' := { sess with thumbnail_path := some selected }
          let ud := setUser st.user_data uid sess'
          ({ st with user_data := ud },
           [.answer, .editMessage urlPromptMsg, .persist ud],
           WAITING_FOR_URL)
      | .badIndex =>
        (st, [.answer, .editMessage "There was an error with your selection. Please try again."],
         WAITING_FOR_THUMBNAIL_SELECTION)
      | .other =>
        (st, [.answer, .editMessage "Invalid selection. Please try again or /cancel to start over."],
         WAITING_FOR_THUMBNAIL_SELECTION)

/-- str.startswith on a tuple of prefixes reduces to this character-level
check (String.startsWith itself, char by char). -/
def startsWithStr (s pre : String) : Bool :=
  pre.data.isPrefixOf s.data

/-- process_url (src/bot.py lines 860-887): admin check, session check,
http(s) scheme validation; on success store the URL, persist the session and
only then send the follow-up prompt.  `text` stands for the already stripped
update.message.text (the strip only removes surrounding whitespace and no
claim depends on it). -/
def process_url (st : BotState) (uid : Nat) (text : String) :
    BotState × List Ev × Int :=
  if uid ≠ ADMIN_USER_ID then (st, [.reply notAdminMsg], END)
  else
    let url := text
    match lookupUser st.user_data uid with
    | none => (st, [.reply "Sorry, there was an error. Please start over."], END)
    | some sess =>
      if startsWithStr url "http://" || startsWithStr url "https://" then
        let sess' := { sess with url := some url }
        let ud := setUser st.user_data uid sess'
        ({ st with user_data := ud },
         [.persist ud,
          .reply "Now please enter the caption for your post. This will be displayed under the thumbnail."],
         WAITING_FOR_CAPTION)
      else
        (st, [.reply "Please enter a valid URL starting with http:// or https://"],
         WAITING_FOR_URL)

/-- process_caption (src/bot.py lines 889-917): store the caption, persist,
then prompt for the channel selection. -/
def process_caption (st : BotState) (uid : Nat) (text : String) :
    BotState × List Ev × Int :=
  if uid ≠ ADMIN_USER_ID then (st, [.reply notAdminMsg], END)
  else
    match lookupUser st.user_data uid with
    | none => (st, [.reply "Sorry, there was an error. Please start over."], END)
    | some sess =>
      let sess' := { sess with caption := some text }
      let ud := setUser st.user_data uid sess'
      ({ st with user_data := ud },
       [.persist ud, .reply "Now, please select which channel to post to:"],
       WAITING_FOR_CHANNEL_SELECTION)

/-- download_large_file_with_progress (src/bot.py lines 487-538):
`fileInfoSize` is file_info.file_size from bot.get_file, `chunks` the sizes
of the streamed chunks and `netOk` whether the HTTP stream succeeds.  If the
advertised size exceeds MAX_FILE_SIZE a ValueError is raised before the
stream is opened, caught by the except clause, and nothing is written.
Time-based progress edits are elided.  Returns (success, files, trace). -/
def download_large_file_with_progress (fs : List Path) (fileInfoSize : Nat)
    (file_path : Path) (chunks : List Nat) (netOk : Bool) :
    Bool × List Path × List Ev :=
  if fileInfoSize > MAX_FILE_SIZE then
    (false, fs, [.reply "Error downloading file: file size exceeds the maximum allowed size"])
  else if netOk = false then
    (false, fs, [.reply "Starting download: 0%", .reply "Error downloading file"])
  else
    (true, file_path :: fs,
     [.reply "Starting download: 0%"] ++ chunks.map Ev.write ++
       [.editMessage "Download complete! Processing video..."])

/-- The five fixed relative thumbnail positions (src/bot.py line 615: the
floats 0.1, 0.25, 0.5, 0.75, 0.9, written as the exact rationals they
denote). -/
def positions : List ℚ := [1 / 10, 1 / 4, 1 / 2, 3 / 4, 9 / 10]

/-- The thumbnail-extraction loop of process_video (src/bot.py lines
621-635): one extract_thumbnail call per indexed position; a success appends
the thumbnail path, a failure is only logged.  `ex` is the frame-extraction
oracle.  Status edits are elided. -/
def extractLoop (temp_dir : Path) (fileId : String) (ex : ℚ → Bool) :
    List (Nat × ℚ) → List Path × List Ev
  | [] => ([], [])
  | (i, pos) :: rest =>
    let tp : Path := temp_dir ++ [fileId ++ "_thumbnail_" ++ toString i ++ ".jpg"]
    let r := extractLoop temp_dir fileId ex rest
    if ex pos then (tp :: r.1, .extract pos true :: r.2)
    else (r.1, .extract pos false :: r.2)

/-- process_video (src/bot.py lines 540-698): admin check, auto-start check,
advertised-size check (update.message.video.file_size), download into a fresh
tempfile.mkdtemp directory `tdir`, session initialisation and persistence,
extraction at the five fixed positions, persistence, and either the
thumbnail-selection prompt or — when no position succeeded — failure
reporting with deletion of the video, removal of the temp directory and of
the user_data entry. -/
def process_video (st : BotState) (uid : Nat) (auto_start : Bool)
    (msgSize : Nat) (fileId tdir : String) (fileInfoSize : Nat)
    (chunks : List Nat) (netOk : Bool) (ex : ℚ → Bool) :
    BotState × List Ev × Int :=
  if uid ≠ ADMIN_USER_ID then (st, [.reply notAdminMsg], END)
  else if auto_start = false ∧ lookupUser st.user_data uid = none then
    (st, [.reply "Please use the /start command first before sending videos."], END)
  else if msgSize > MAX_FILE_SIZE then
    (st, [.reply "The video file is too large."], END)
  else
    let temp_dir : Path := [TEMP_FOLDER, tdir]
    let video_path : Path := temp_dir ++ [fileId ++ ".mp4"]
    let dl := download_large_file_with_progress st.files fileInfoSize video_path chunks netOk
    let pre : List Ev := [.reply "Processing your video... Please wait."] ++ dl.2.2
    if dl.1 = false then
      ({ st with files := rmtree dl.2.1 temp_dir }, pre, END)
    else
      let sess0 : Session := ⟨some video_path, [], none, none, none, false⟩
      let ud1 := setUser st.user_data uid sess0
      let er := extractLoop temp_dir fileId ex positions.enum
      let sess1 : Session := ⟨some video_path, er.1, none, none, none, false⟩
      let ud2 := setUser ud1 uid sess1
      let mid : List Ev :=
        pre ++ [.persist ud1,
                .reply "Video downloaded successfully. Extracting thumbnails..."] ++
          er.2 ++ [.persist ud2]
      if er.1 ≠ [] then
        ({ st with user_data := ud2, files := er.1 ++ dl.2.1 },
         mid ++ (er.1.map fun t => Ev.replyPhoto t "Thumbnail") ++
           [.reply "Please select one of the thumbnails above:"],
         WAITING_FOR_THUMBNAIL_SELECTION)
      else
        let d1 := try_delete_file dl.2.1 (some video_path)
        let fs2 := rmtree d1.1 temp_dir
        let ud3 := delUser ud2 uid
        ({ st with user_data := ud3, files := fs2 },
         mid ++ [.reply "Sorry, I could not generate thumbnails from your video."] ++
           d1.2 ++ [.persist ud3],
         END)

/-- handle_custom_thumbnail (src/bot.py lines 759-820).  `input` is the
result of float(update.message.text.strip()): none models the ValueError of
a non-numeric input.  An out-of-range or non-numeric input is rejected
without touching the session; an in-range value is divided by 100 and the
frame-extraction oracle `ex` decides whether the custom thumbnail is
produced.  In the unreachable case of a session with no video_path the
KeyError would escape to the global error handler. -/
def handle_custom_thumbnail (st : BotState) (uid : Nat) (input : Option ℚ)
    (ex : ℚ → Bool) : BotState × List Ev × Int :=
  if uid ≠ ADMIN_USER_ID then (st, [.reply notAdminMsg], END)
  else
    match lookupUser st.user_data uid with
    | none => (st, [.reply "Sorry, there was an error. Please start over."], END)
    | some sess =>
      if sess.waiting_for_custom_thumbnail = false then
        (st, [.reply "Sorry, there was an error. Please start over."], END)
      else
        match input with
        | none =>
          (st, [.reply "Please enter a valid number between 0 and 100. For example: 35"],
           WAITING_FOR_THUMBNAIL_SELECTION)
        | some p =>
          if p < 0 ∨ p > 100 then
            (st, [.reply "Position must be between 0 and 100. Please try again:"],
             WAITING_FOR_THUMBNAIL_SELECTION)
          else
            match sess.video_path with
            | none => (st, [], END)
            | some vp =>
              let pos := p / 100
              let ctp : Path := vp.dropLast ++ [vp.getLastD "" ++ "_custom.jpg"]
              if ex pos then
                let sess' := { sess with thumbnail_path := some ctp,
                                         waiting_for_custom_thumbnail := false }
                let ud := setUser st.user_data uid sess'
                ({ st with user_data := ud, files := ctp :: st.files },
                 [.reply "Generating custom thumbnail...", .extract pos true,
                  .persist ud, .replyPhoto ctp "Custom thumbnail", .reply urlPromptMsg],
                 WAITING_FOR_URL)
              else
                (st, [.reply "Generating custom thumbnail...", .extract pos false,
                      .reply "Sorry, I could not generate a thumbnail at that position. Please try a different position or select one of the pre-generated thumbnails."],
                 WAITING_FOR_THUMBNAIL_SELECTION)

/-- cleanup_command (src/bot.py lines 259-293): for every entry of the temp
folder, unlink it if it is a file and rmtree it if it is a directory other
than "history"; then clear the whole user_data dictionary and persist.  On
the file-set model: a path survives iff it is outside TEMP_FOLDER or below
TEMP_FOLDER/history.  post_history is not touched. -/
def cleanup_command (st : BotState) (uid : Nat) : BotState × List Ev :=
  if uid ≠ ADMIN_USER_ID then (st, [.reply notAdminMsg])
  else
    let fs' := st.files.filter fun p =>
      decide (¬ [TEMP_FOLDER] <+: p) || decide (historyDir <+: p)
    ({ st with user_data := [], files := fs' },
     [.persist [],
      .reply "Cleanup completed. Post history remains intact."])

/-- The handlers of the ConversationHandler states dictionary
(src/bot.py lines 1048-1062). -/
inductive HandlerId
  | selectThumbnail
  | handleCustomThumbnail
  | processUrl
  | processCaption
  | selectChannelAndPost
deriving DecidableEq

/-- The states dictionary of the ConversationHandler (src/bot.py lines
1048-1062): which handlers are active in each conversation state.  After a
handler returns ConversationHandler.END the conversation is over and no
state handler is active (a further callback query matches no entry point —
entry points are only /start and private video messages, lines 1044-1047). -/
def stateHandlers (s : Int) : List HandlerId :=
  if s = WAITING_FOR_THUMBNAIL_SELECTION then [.selectThumbnail, .handleCustomThumbnail]
  else if s = WAITING_FOR_URL then [.processUrl]
  else if s = WAITING_FOR_CAPTION then [.processCaption]
  else if s = WAITING_FOR_CHANNEL_SELECTION then [.selectChannelAndPost]
  else []

/-- Replay a sequence of destination-chosen callback queries from the same
user through select_channel_and_post, accumulating the emitted events.  Each
element carries the callback payload, the transport outcome, the timestamp
and the history-copy outcome of that invocation. -/
def runChannelCallbacks (uid : Nat) :
    BotState → List (String × Bool × String × Bool) → BotState × List Ev
  | st, [] => (st, [])
  | st, c :: rest =>
    let r := select_channel_and_post st uid c.1 c.2.1 c.2.2.1 c.2.2.2
    let r2 := runChannelCallbacks uid r.1 rest
    (r2.1, r.2.1 ++ r2.2)

/-- Whether an event is the outbound channel post. -/
def isSendPost : Ev → Bool
  | .sendPost _ _ _ _ => true
  | _ => false

/-- Number of outbound channel posts in a trace. -/
def sendPostCount (tr : List Ev) : Nat :=
  (tr.filter isSendPost).length

/-- Whether an event is a session persistence (save_session). -/
def isPersistEv : Ev → Bool
  | .persist _ => true
  | _ => false

/-- Whether an event is an outbound message to the operator or a channel
(a reply, a photo reply, a message edit, or the channel post). -/
def isOutboundEv : Ev → Bool
  | .reply _ => true
  | .replyPhoto _ _ => true
  | .editMessage _ => true
  | .sendPost _ _ _ _ => true
  | _ => false

/-- Whether an event deletes a file. -/
def isDeleteEv : Ev → Bool
  | .deleteFile _ => true
  | _ => false

/-- Index of the first event satisfying a predicate. -/
def firstIdx (p : Ev → Bool) : List Ev → Option Nat
  | [] => none
  | e :: tr => if p e then some 0 else (firstIdx p tr).map (· + 1)

/-- Total number of bytes written to local storage in a trace. -/
def bytesWritten (tr : List Ev) : Nat :=
  (tr.filterMap fun e =>
    match e with
    | .write n => some n
    | _ => none).sum

/-- The extraction events of a trace, in order. -/
def extractEvents (tr : List Ev) : List (ℚ × Bool) :=
  tr.filterMap fun e =>
    match e with
    | .extract pos ok => some (pos, ok)
    | _ => none

/-- Whether the claim "the session snapshot is persisted before any further
reply is sent" holds of a trace: the first persistence event occurs strictly
before the first outbound message following it; concretely, the first
persistence index is below the first outbound-message index. -/
def persistBeforeOutbound (tr : List Ev) : Bool :=
  match firstIdx isPersistEv tr, firstIdx isOutboundEv tr with
  | some i, some j => decide (i < j)
  | _, _ => false

/-- Whether a recipient document has a truthy userId (Python `if user_id:`,
src/main.py lines 295-296 and 315-316). -/
def truthySend (u : UserDoc) : Bool :=
  match u.userId with
  | some n => decide (n ≠ 0)
  | none => false

/-- Specification helper: recipients whose send succeeds. -/
def sentCount (l : List UserDoc) : Nat :=
  (l.filter fun u => truthySend u && u.sendOk).length

/-- Specification helper: recipients whose send raises. -/
def failCount (l : List UserDoc) : Nat :=
  (l.filter fun u => truthySend u && !u.sendOk).length

/-- Specification helper: the send events a recipient list gives rise to,
one per truthy recipient, in order. -/
def sendTrace (l : List UserDoc) : List BEv :=
  l.filterMap fun u =>
    match u.userId with
    | some n => if n = 0 then none else some (.send n u.sendOk)
    | none => none

/-- Specification helper: the candidate thumbnail paths process_video ends
up with — one per fixed position at which the extraction oracle succeeds,
in position order. -/
def thumbPaths (tdir fileId : String) (ex : ℚ → Bool) : List Path :=
  (positions.enum.filter fun ip => ex ip.2).map
    fun ip => [TEMP_FOLDER, tdir] ++ [fileId ++ "_thumbnail_" ++ toString ip.1 ++ ".jpg"]

/-- The invariant that add_to_post_history maintains: every thumbnail
recorded in the post history is a file below TEMP_FOLDER/history and
exists. -/
def histInvB (st : BotState) : Bool :=
  st.post_history.all fun e =>
    match e.thumbnail_path with
    | none => true
    | some p => decide (historyDir <+: p) && decide (p ∈ st.files)

/-! ## Concrete states used by the witnesses and counterexamples -/

/-- A session that has reached the channel-selection step. -/
def sessFull : Session :=
  ⟨some ["temp", "d7", "v.mp4"],
   [["temp", "d7", "v_thumbnail_0.jpg"], ["temp", "d7", "v_thumbnail_1.jpg"]],
   some ["temp", "d7", "v_thumbnail_0.jpg"],
   some "https://example.com/post",
   some "A caption",
   false⟩

/-- A bot state in which the admin holds `sessFull` and its files exist. -/
def stFull : BotState :=
  ⟨[(ADMIN_USER_ID, sessFull)], [],
   [["temp", "d7", "v.mp4"], ["temp", "d7", "v_thumbnail_0.jpg"],
    ["temp", "d7", "v_thumbnail_1.jpg"]]⟩

/-- A session at the thumbnail-selection step, before any choice was made. -/
def sessThumbs : Session :=
  ⟨some ["temp", "d8", "v.mp4"],
   [["temp", "d8", "v_thumbnail_0.jpg"], ["temp", "d8", "v_thumbnail_1.jpg"]],
   none, none, none, false⟩

/-- A bot state in which the admin holds `sessThumbs`. -/
def stThumbs : BotState :=
  ⟨[(ADMIN_USER_ID, sessThumbs)], [],
   [["temp", "d8", "v.mp4"], ["temp", "d8", "v_thumbnail_0.jpg"],
    ["temp", "d8", "v_thumbnail_1.jpg"]]⟩

/-- A session waiting for a custom thumbnail-position input. -/
def sessCustom : Session :=
  ⟨some ["temp", "d9", "v.mp4"], [], none, none, none, true⟩

/-- A bot state in which the admin holds `sessCustom`. -/
def stCustom : BotState :=
  ⟨[(ADMIN_USER_ID, sessCustom)], [], [["temp", "d9", "v.mp4"]]⟩

/-- A frame-extraction oracle that always succeeds. -/
def exAll : ℚ → Bool := fun _ => true

/-- A frame-extraction oracle failing exactly at the second and fourth fixed
positions (25 percent and 75 percent). -/
def exDrop : ℚ → Bool := fun p => decide (p ≠ 1 / 4) && decide (p ≠ 3 / 4)

/-- A bot state with one published post recorded in the history, its durable
thumbnail copy below TEMP_FOLDER/history, and some leftover temp files. -/
def stHist : BotState :=
  ⟨[(ADMIN_USER_ID, sessThumbs)],
   [⟨"20240101", MOVIES_CHANNEL, "A caption", "https://example.com/post",
     some ["temp", "history", "thumb_20240101.jpg"]⟩],
   [["temp", "history", "thumb_20240101.jpg"], ["temp", "stray.bin"],
    ["temp", "d8", "v.mp4"], ["elsewhere", "keep.txt"]]⟩

/-- 250 broadcast recipients, all with truthy ids, exactly one of which
(recipient 18) fails. -/
def users250 : List UserDoc :=
  (List.range 250).map fun i => ⟨some (i + 1), decide (i ≠ 17)⟩

/-! ## Supporting lemmas -/

theorem apiLoop_events (api : Nat → ApiOutcome) (p : Provider) :
    ∀ r i, ∀ e ∈ (apiLoop api p r i).2,
      (∃ o, e = FetchEv.call p o) ∨ e = FetchEv.sleep 2 := by
  intro r
  induction r with
  | zero => intro i e he; simp [apiLoop] at he
  | succ r ih =>
    intro i e he
    simp only [apiLoop] at he
    cases h : api i <;> rw [h] at he
    case ok d => simp at he; exact Or.inl ⟨_, he⟩
    case bad => simp at he; exact Or.inl ⟨_, he⟩
    case err => simp at he; exact Or.inl ⟨_, he⟩
    case timeout =>
      by_cases hr : r = 0
      · simp [hr] at he; exact Or.inl ⟨_, he⟩
      · simp only [hr, if_neg, if_false] at he
        simp at he
        rcases he with he | he | he
        · exact Or.inl ⟨_, he⟩
        · exact Or.inr he
        · exact ih (i + 1) e he

theorem apiLoop_none_outcomes (api : Nat → ApiOutcome) (p : Provider) :
    ∀ r i, (apiLoop api p r i).1 = none →
      callOutcomes (apiLoop api p r i).2 = List.replicate r ApiOutcome.timeout ∨
      ∃ k b, k < r ∧ (b = ApiOutcome.bad ∨ b = ApiOutcome.err) ∧
        callOutcomes (apiLoop api p r i).2 =
          List.replicate k ApiOutcome.timeout ++ [b] := by
  intro r
  induction r with
  | zero => intro i _; left; simp [apiLoop, callOutcomes]
  | succ r ih =>
    intro i hnone
    simp only [apiLoop] at hnone ⊢
    cases h : api i <;> simp only [h] at hnone ⊢
    case ok d => simp at hnone
    case bad =>
      right
      exact ⟨0, .bad, Nat.succ_pos r, Or.inl rfl, by simp [callOutcomes]⟩
    case err =>
      right
      exact ⟨0, .err, Nat.succ_pos r, Or.inr rfl, by simp [callOutcomes]⟩
    case timeout =>
      by_cases hr : r = 0
      · left; simp [hr, callOutcomes]
      · simp only [hr, if_neg, if_false] at hnone ⊢
        rcases ih (i + 1) hnone with hrep | ⟨k, b, hk, hb, hout⟩
        · left
          simp only [callOutcomes] at hrep ⊢
          simp only [List.filterMap_cons]
          rw [List.replicate_succ]
          exact congrArg (List.cons ApiOutcome.timeout) hrep
        · right
          refine ⟨k + 1, b, Nat.succ_lt_succ hk, hb, ?_⟩
          simp only [callOutcomes] at hout ⊢
          simp only [List.filterMap_cons]
          rw [List.replicate_succ, List.cons_append]
          exact congrArg (List.cons ApiOutcome.timeout) hout

/-- Claim C2: for every content identifier, fetch_video queries the
providers strictly in sequence: its event trace is a primary phase followed
by a fallback phase; the fallback is contacted (the fallback phase is
non-empty) only after the primary phase either exhausted its 3-try budget —
all three tries timing out, retries and their fixed 2-second sleeps
happening only on timeout — or ended at once on a structurally unsuccessful
response (bad) or a non-timeout failure (err); and when both providers fail
the result is a single failure value carrying no partial data. -/
theorem C2_provider_fallback (primaryApi fallbackApi : Nat → ApiOutcome) :
    ∃ ptr ftr,
      (fetch_video primaryApi fallbackApi 3).2 = ptr ++ ftr ∧
      (∀ e ∈ ptr, (∃ o, e = FetchEv.call Provider.primary o) ∨ e = FetchEv.sleep 2) ∧
      (∀ e ∈ ftr, (∃ o, e = FetchEv.call Provider.fallback o) ∨ e = FetchEv.sleep 2) ∧
      (ftr ≠ [] →
        callOutcomes ptr = List.replicate 3 ApiOutcome.timeout ∨
        ∃ k b, k < 3 ∧ (b = ApiOutcome.bad ∨ b = ApiOutcome.err) ∧
          callOutcomes ptr = List.replicate k ApiOutcome.timeout ++ [b]) ∧
      ((fetch_video primaryApi fallbackApi 3).1.success = false →
        (fetch_video primaryApi fallbackApi 3).1 =
          ⟨false, none, none, some "Both APIs failed to fetch the video"⟩) := by
  rcases hp : apiLoop primaryApi .primary 3 0 with ⟨pres, ptr⟩
  cases pres with
  | some d =>
    refine ⟨ptr, [], ?_, ?_, ?_, ?_, ?_⟩
    · simp [fetch_video, hp]
    · intro e he
      exact apiLoop_events primaryApi .primary 3 0 e (by rw [hp]; exact he)
    · intro e he; simp at he
    · intro h; exact absurd rfl h
    · intro h; simp [fetch_video, hp] at h
  | none =>
    rcases hf : apiLoop fallbackApi .fallback 3 0 with ⟨fres, ftr⟩
    have hponly : ∀ e ∈ ptr,
        (∃ o, e = FetchEv.call Provider.primary o) ∨ e = FetchEv.sleep 2 := by
      intro e he
      exact apiLoop_events primaryApi .primary 3 0 e (by rw [hp]; exact he)
    have hfonly : ∀ e ∈ ftr,
        (∃ o, e = FetchEv.call Provider.fallback o) ∨ e = FetchEv.sleep 2 := by
      intro e he
      exact apiLoop_events fallbackApi .fallback 3 0 e (by rw [hf]; exact he)
    have hshape := apiLoop_none_outcomes primaryApi .primary 3 0 (by rw [hp])
    rw [hp] at hshape
    cases fres with
    | some d =>
      refine ⟨ptr, ftr, by simp [fetch_video, hp, hf], hponly, hfonly,
        fun _ => hshape, ?_⟩
      intro h; simp [fetch_video, hp, hf] at h
    | none =>
      refine ⟨ptr, ftr, by simp [fetch_video, hp, hf], hponly, hfonly,
        fun _ => hshape, ?_⟩
      intro _; simp [fetch_video, hp, hf]

theorem lookup_setUser_self (ud : UserData) (uid : Nat) (s : Session) :
    lookupUser (setUser ud uid s) uid = some s := by
  induction ud with
  | nil => simp [setUser, lookupUser]
  | cons kv rest ih =>
    by_cases h : kv.1 = uid
    · simp [setUser, h, lookupUser]
    · simpa [setUser, h, lookupUser] using ih

theorem lookup_delUser_self (ud : UserData) (uid : Nat) :
    lookupUser (delUser ud uid) uid = none := by
  induction ud with
  | nil => simp [delUser, lookupUser]
  | cons kv rest ih =>
    by_cases h : kv.1 = uid <;> simp [delUser, h, lookupUser] at ih ⊢

theorem sendPostCount_append (a b : List Ev) :
    sendPostCount (a ++ b) = sendPostCount a + sendPostCount b := by
  simp [sendPostCount, List.filter_append]

theorem isSendPost_eq_false_of_delete (e : Ev) (h : isDeleteEv e = true) :
    isSendPost e = false := by
  cases e <;> simp [isDeleteEv, isSendPost] at h ⊢

theorem sendPostCount_of_deletes (tr : List Ev)
    (h : ∀ e ∈ tr, isDeleteEv e = true) : sendPostCount tr = 0 := by
  have : tr.filter isSendPost = [] := by
    rw [List.filter_eq_nil_iff]
    intro e he
    simp [isSendPost_eq_false_of_delete e (h e he)]
  simp [sendPostCount, this]

theorem try_delete_file_events (fs : List Path) (p : Option Path) :
    ∀ e ∈ (try_delete_file fs p).2, isDeleteEv e = true := by
  cases p with
  | none => simp [try_delete_file]
  | some q =>
    by_cases h : q ∈ fs <;> simp [try_delete_file, h, isDeleteEv]

theorem deleteAllExcept_events (keep : Path) :
    ∀ l fs, ∀ e ∈ (deleteAllExcept fs keep l).2, isDeleteEv e = true := by
  intro l
  induction l with
  | nil => intro fs e he; simp [deleteAllExcept] at he
  | cons p rest ih =>
    intro fs e he
    by_cases h : p = keep
    · rw [deleteAllExcept, if_pos h] at he
      exact ih fs e he
    · rw [deleteAllExcept, if_neg h] at he
      simp only [List.mem_append] at he
      rcases he with he | he
      · exact try_delete_file_events _ _ e he
      · exact ih _ e he

theorem deleteAll_events :
    ∀ l fs, ∀ e ∈ (deleteAll fs l).2, isDeleteEv e = true := by
  intro l
  induction l with
  | nil => intro fs e he; simp [deleteAll] at he
  | cons p rest ih =>
    intro fs e he
    rw [deleteAll] at he
    simp only [List.mem_append] at he
    rcases he with he | he
    · exact try_delete_file_events _ _ e he
    · exact ih _ e he

theorem scp_no_session_eq (st : BotState) (cb : String) (tOk : Bool)
    (ts : String) (cOk : Bool)
    (h : lookupUser st.user_data ADMIN_USER_ID = none) :
    select_channel_and_post st ADMIN_USER_ID cb tOk ts cOk =
      (st, [.answer, .editMessage "Sorry, there was an error. Please start over."],
       END) := by
  simp [select_channel_and_post, h]

theorem scp_no_session_no_post (st : BotState) (uid : Nat) (cb : String)
    (tOk : Bool) (ts : String) (cOk : Bool)
    (h : lookupUser st.user_data uid = none) :
    (select_channel_and_post st uid cb tOk ts cOk).1 = st ∧
    sendPostCount (select_channel_and_post st uid cb tOk ts cOk).2.1 = 0 := by
  by_cases huid : uid = ADMIN_USER_ID
  · subst huid
    rw [scp_no_session_eq st cb tOk ts cOk h]
    simp [sendPostCount, isSendPost]
  · simp [select_channel_and_post, huid, sendPostCount, isSendPost]

theorem runCallbacks_no_post (uid : Nat) :
    ∀ cbs (st : BotState), lookupUser st.user_data uid = none →
      (runChannelCallbacks uid st cbs).1 = st ∧
      sendPostCount (runChannelCallbacks uid st cbs).2 = 0 := by
  intro cbs
  induction cbs with
  | nil => intro st _; simp [runChannelCallbacks, sendPostCount]
  | cons c rest ih =>
    intro st h
    have h1 := scp_no_session_no_post st uid c.1 c.2.1 c.2.2.1 c.2.2.2 h
    have h2 := ih (select_channel_and_post st uid c.1 c.2.1 c.2.2.1 c.2.2.2).1
      (by rw [h1.1]; exact h)
    rw [runChannelCallbacks]
    refine ⟨by rw [h2.1, h1.1], ?_⟩
    rw [sendPostCount_append, h1.2, h2.2]

theorem sendPostCount_try_delete (fs : List Path) (p : Option Path) :
    sendPostCount (try_delete_file fs p).2 = 0 :=
  sendPostCount_of_deletes _ (try_delete_file_events fs p)

theorem sendPostCount_deleteAllExcept (fs : List Path) (keep : Path)
    (l : List Path) : sendPostCount (deleteAllExcept fs keep l).2 = 0 :=
  sendPostCount_of_deletes _ (deleteAllExcept_events keep l fs)

/-- Claim C1: publish is effectively once-only.  A successful publish
(select_channel_and_post sending the post) emits exactly one outbound post
and deletes the entry of the invoking user from user_data before returning; every
subsequent destination-chosen callback from the same user then hits the
no-active-session branch, which only replies with an error and ends; hence
no sequence of further destination-chosen callbacks ever produces a second
outbound post from the same session. -/
theorem C1_publish_once_only (st : BotState) (uid : Nat) (sess : Session)
    (cb ts : String) (cOk : Bool) (thumb : Path) (url caption : String)
    (huid : uid = ADMIN_USER_ID)
    (hsess : lookupUser st.user_data uid = some sess)
    (hcb : cb = CALLBACK_MOVIES ∨ cb = CALLBACK_STUFF)
    (hthumb : sess.thumbnail_path = some thumb)
    (hurl : sess.url = some url)
    (hcap : sess.caption = some caption) :
    sendPostCount (select_channel_and_post st uid cb true ts cOk).2.1 = 1 ∧
    lookupUser (select_channel_and_post st uid cb true ts cOk).1.user_data uid
      = none ∧
    (∀ cb' tOk' ts' cOk',
      select_channel_and_post (select_channel_and_post st uid cb true ts cOk).1
          uid cb' tOk' ts' cOk' =
        ((select_channel_and_post st uid cb true ts cOk).1,
         [.answer, .editMessage "Sorry, there was an error. Please start over."],
         END)) ∧
    (∀ cbs, sendPostCount
      (runChannelCallbacks uid
        (select_channel_and_post st uid cb true ts cOk).1 cbs).2 = 0) := by
  subst huid
  obtain ⟨chan, hchan⟩ : ∃ chan,
      (if cb = CALLBACK_MOVIES then some MOVIES_CHANNEL
       else if cb = CALLBACK_STUFF then some STUFF_CHANNEL else none)
        = some chan := by
    rcases hcb with rfl | rfl
    · exact ⟨MOVIES_CHANNEL, by simp⟩
    · exact ⟨STUFF_CHANNEL, by decide⟩
  have hlookup : lookupUser
      (select_channel_and_post st ADMIN_USER_ID cb true ts cOk).1.user_data
      ADMIN_USER_ID = none := by
    simp only [select_channel_and_post, hsess, hchan, hthumb, hurl, hcap]
    simp [lookup_delUser_self]
  refine ⟨?_, hlookup, ?_, ?_⟩
  · simp only [select_channel_and_post, hsess, hchan, hthumb, hurl, hcap]
    simp [add_to_post_history, sendPostCount_append, sendPostCount_try_delete,
      sendPostCount_deleteAllExcept, sendPostCount, isSendPost]
    constructor
    · intro a ha
      exact isSendPost_eq_false_of_delete a (try_delete_file_events _ _ a ha)
    · intro a ha
      exact isSendPost_eq_false_of_delete a (deleteAllExcept_events _ _ _ a ha)
  · intro cb' tOk' ts' cOk'
    exact scp_no_session_eq _ cb' tOk' ts' cOk' hlookup
  · intro cbs
    exact (runCallbacks_no_post ADMIN_USER_ID cbs _ hlookup).2

/-- Witness for C1 at a concrete state: from `stFull` one publish to the
movies channel emits exactly one post and destroys the session; replaying a
destination-chosen callback afterwards emits no further post. -/
theorem C1_publish_once_only_witness :
    lookupUser stFull.user_data ADMIN_USER_ID = some sessFull ∧
    sendPostCount
      (select_channel_and_post stFull ADMIN_USER_ID CALLBACK_MOVIES true
        "20240101" true).2.1 = 1 ∧
    lookupUser
      (select_channel_and_post stFull ADMIN_USER_ID CALLBACK_MOVIES true
        "20240101" true).1.user_data ADMIN_USER_ID = none ∧
    sendPostCount
      (runChannelCallbacks ADMIN_USER_ID
        (select_channel_and_post stFull ADMIN_USER_ID CALLBACK_MOVIES true
          "20240101" true).1
        [(CALLBACK_STUFF, true, "20240102", true)]).2 = 0 := by
  have h := C1_publish_once_only stFull ADMIN_USER_ID sessFull CALLBACK_MOVIES
    "20240101" true ["temp", "d7", "v_thumbnail_0.jpg"]
    "https://example.com/post" "A caption"
    rfl (by decide) (Or.inl rfl) (by decide) (by decide) (by decide)
  exact ⟨by decide, h.1, h.2.1, h.2.2.2 [(CALLBACK_STUFF, true, "20240102", true)]⟩

/-- Counterexample to claim C3: in the thumbnail-selection handler the
follow-up URL prompt (trace index 1) is emitted before the session snapshot
is persisted (trace index 2), so the mutation is not persisted before the
reply; both events do occur in the trace. -/
theorem C3_counterexample :
    (firstIdx isPersistEv
      (select_thumbnail stThumbs ADMIN_USER_ID (.thumb 0)).2.1).isSome = true ∧
    (firstIdx isOutboundEv
      (select_thumbnail stThumbs ADMIN_USER_ID (.thumb 0)).2.1).isSome = true ∧
    persistBeforeOutbound
      (select_thumbnail stThumbs ADMIN_USER_ID (.thumb 0)).2.1 = false := by
  decide

/-- Claim C3 (amended): process_url persists the mutated session before its
follow-up reply, but select_thumbnail emits the follow-up URL prompt first
and persists the thumbnail selection only afterwards — the snapshot is still
written before the handler returns, as the exact trace shows. -/
theorem C3_persist_order (st : BotState) (uid : Nat) (sess : Session)
    (i : Nat) (sel : Path) (text : String)
    (huid : uid = ADMIN_USER_ID)
    (hsess : lookupUser st.user_data uid = some sess)
    (hget : sess.thumbnails[i]? = some sel)
    (hurl : (startsWithStr text "http://" || startsWithStr text "https://")
      = true) :
    (select_thumbnail st uid (.thumb i)).2.1 =
      [.answer, .editMessage urlPromptMsg,
       .persist (setUser st.user_data uid
         { sess with thumbnail_path := some sel })] ∧
    persistBeforeOutbound (select_thumbnail st uid (.thumb i)).2.1 = false ∧
    (process_url st uid text).2.1 =
      [.persist (setUser st.user_data uid { sess with url := some text }),
       .reply "Now please enter the caption for your post. This will be displayed under the thumbnail."] ∧
    persistBeforeOutbound (process_url st uid text).2.1 = true := by
  subst huid
  have h1 : (select_thumbnail st ADMIN_USER_ID (.thumb i)).2.1 =
      [.answer, .editMessage urlPromptMsg,
       .persist (setUser st.user_data ADMIN_USER_ID
         { sess with thumbnail_path := some sel })] := by
    simp [select_thumbnail, hsess, hget]
  have h2 : (process_url st ADMIN_USER_ID text).2.1 =
      [.persist (setUser st.user_data ADMIN_USER_ID { sess with url := some text }),
       .reply "Now please enter the caption for your post. This will be displayed under the thumbnail."] := by
    simp [process_url, hsess, hurl]
  refine ⟨h1, ?_, h2, ?_⟩
  · rw [h1]
    simp [persistBeforeOutbound, firstIdx, isPersistEv, isOutboundEv]
  · rw [h2]
    simp [persistBeforeOutbound, firstIdx, isPersistEv, isOutboundEv]

/-- Witness for the amended C3 at a concrete state and input. -/
theorem C3_persist_order_witness :
    lookupUser stThumbs.user_data ADMIN_USER_ID = some sessThumbs ∧
    sessThumbs.thumbnails[0]? = some ["temp", "d8", "v_thumbnail_0.jpg"] ∧
    persistBeforeOutbound
      (select_thumbnail stThumbs ADMIN_USER_ID (.thumb 0)).2.1 = false ∧
    persistBeforeOutbound
      (process_url stThumbs ADMIN_USER_ID "https://example.com/post").2.1
      = true := by
  have h := C3_persist_order stThumbs ADMIN_USER_ID sessThumbs 0
    ["temp", "d8", "v_thumbnail_0.jpg"] "https://example.com/post"
    rfl (by decide) (by decide) (by decide)
  exact ⟨by decide, by decide, h.2.1, h.2.2.2⟩

/-- Claim C4, evaluated at the failing input: when the transport rejects the
outbound post, select_channel_and_post does leave the whole state unchanged
(session entry with its thumbnail_path, url and caption, the post history
and the files) and emits no post, no deletion and no persistence — but it
returns ConversationHandler.END instead of WAITING_FOR_CHANNEL_SELECTION,
and in the ended conversation no handler is active any more, so the
destination choice cannot in fact be retried without restarting the
workflow (its own error message nevertheless invites a retry). -/
theorem C4_transport_failure_eval :
    (select_channel_and_post stFull ADMIN_USER_ID CALLBACK_MOVIES false
      "20240101" true).1 = stFull ∧
    sendPostCount (select_channel_and_post stFull ADMIN_USER_ID
      CALLBACK_MOVIES false "20240101" true).2.1 = 0 ∧
    ((select_channel_and_post stFull ADMIN_USER_ID CALLBACK_MOVIES false
      "20240101" true).2.1.filter isDeleteEv) = [] ∧
    ((select_channel_and_post stFull ADMIN_USER_ID CALLBACK_MOVIES false
      "20240101" true).2.1.filter isPersistEv) = [] ∧
    (select_channel_and_post stFull ADMIN_USER_ID CALLBACK_MOVIES false
      "20240101" true).2.2 = END ∧
    (select_channel_and_post stFull ADMIN_USER_ID CALLBACK_MOVIES false
      "20240101" true).2.2 ≠ WAITING_FOR_CHANNEL_SELECTION ∧
    stateHandlers END = [] ∧
    stateHandlers WAITING_FOR_CHANNEL_SELECTION
      = [HandlerId.selectChannelAndPost] := by
  decide

/-- Claim C5: a video whose advertised size exceeds the 1 GiB ceiling is
rejected before the transfer begins.  process_video writes zero bytes when
update.message.video.file_size exceeds the ceiling; independently,
download_large_file_with_progress reports failure, writes zero bytes and
leaves the file set unchanged when file_info.file_size exceeds the
ceiling. -/
theorem C5_size_guard (st : BotState) (uid : Nat) (auto_start : Bool)
    (msgSize : Nat) (fileId tdir : String) (fileInfoSize : Nat)
    (chunks : List Nat) (netOk : Bool) (ex : ℚ → Bool)
    (h : msgSize > MAX_FILE_SIZE) :
    bytesWritten (process_video st uid auto_start msgSize fileId tdir
      fileInfoSize chunks netOk ex).2.1 = 0 ∧
    (∀ (fs : List Path) (fp : Path) (chs : List Nat) (nOk : Bool)
        (fiSize : Nat), fiSize > MAX_FILE_SIZE →
      (download_large_file_with_progress fs fiSize fp chs nOk).1 = false ∧
      (download_large_file_with_progress fs fiSize fp chs nOk).2.1 = fs ∧
      bytesWritten
        (download_large_file_with_progress fs fiSize fp chs nOk).2.2 = 0) := by
  constructor
  · by_cases h1 : uid = ADMIN_USER_ID
    · subst h1
      by_cases h2 : auto_start = false ∧
          lookupUser st.user_data ADMIN_USER_ID = none
      · simp [process_video, h2, bytesWritten]
      · simp [process_video, h2, h, bytesWritten]
    · simp [process_video, h1, bytesWritten]
  · intro fs fp chs nOk fiSize hf
    simp [download_large_file_with_progress, hf, bytesWritten]

/-- Witness for C5: a 2 GiB advertised size against the 1 GiB ceiling is
rejected at both check sites with zero bytes written. -/
theorem C5_size_guard_witness :
    2 * 1024 * 1024 * 1024 > MAX_FILE_SIZE ∧
    bytesWritten (process_video ⟨[], [], []⟩ ADMIN_USER_ID true
      (2 * 1024 * 1024 * 1024) "vid" "d1" (2 * 1024 * 1024 * 1024)
      [4096] true exAll).2.1 = 0 ∧
    (download_large_file_with_progress [] (2 * 1024 * 1024 * 1024)
      ["temp", "d1", "vid.mp4"] [4096] true).1 = false ∧
    bytesWritten (download_large_file_with_progress []
      (2 * 1024 * 1024 * 1024) ["temp", "d1", "vid.mp4"] [4096] true).2.2
      = 0 := by
  have h := C5_size_guard ⟨[], [], []⟩ ADMIN_USER_ID true
    (2 * 1024 * 1024 * 1024) "vid" "d1" (2 * 1024 * 1024 * 1024)
    [4096] true exAll (by decide)
  have h2 := h.2 [] ["temp", "d1", "vid.mp4"] [4096] true
    (2 * 1024 * 1024 * 1024) (by decide)
  exact ⟨by decide, h.1, h2.1, h2.2.2⟩

theorem extractLoop_eq (temp_dir : Path) (fileId : String) (ex : ℚ → Bool) :
    ∀ l : List (Nat × ℚ),
      extractLoop temp_dir fileId ex l =
        ((l.filter fun ip => ex ip.2).map
           (fun ip =>
             temp_dir ++ [fileId ++ "_thumbnail_" ++ toString ip.1 ++ ".jpg"]),
         l.map fun ip => .extract ip.2 (ex ip.2)) := by
  intro l
  induction l with
  | nil => simp [extractLoop]
  | cons ip rest ih =>
    rcases ip with ⟨i, pos⟩
    by_cases h : ex pos <;> simp [extractLoop, h, ih]

theorem enumFrom_filter_length (p : ℚ → Bool) :
    ∀ (l : List ℚ) (n : Nat),
      ((List.enumFrom n l).filter fun ip => p ip.2).length
        = (l.filter p).length := by
  intro l
  induction l with
  | nil => intro n; simp
  | cons x xs ih =>
    intro n
    by_cases h : p x <;> simp [List.enumFrom, h, ih]

theorem enumFrom_map_snd_pair (f : ℚ → ℚ × Bool) :
    ∀ (l : List ℚ) (n : Nat),
      (List.enumFrom n l).map (fun ip => f ip.2) = l.map f := by
  intro l
  induction l with
  | nil => intro n; simp
  | cons x xs ih => intro n; simp [List.enumFrom, ih]

theorem rmtree_not_below (fs : List Path) (dir : Path) :
    ∀ q ∈ rmtree fs dir, ¬ dir <+: q := by
  intro q hq
  simp [rmtree] at hq
  exact hq.2

theorem extractEvents_try_delete (fs : List Path) (p : Option Path) :
    extractEvents (try_delete_file fs p).2 = [] := by
  cases p with
  | none => simp [try_delete_file, extractEvents]
  | some q => by_cases h : q ∈ fs <;> simp [try_delete_file, h, extractEvents]

theorem extractEvents_writes (chunks : List Nat) :
    extractEvents (chunks.map Ev.write) = [] := by
  induction chunks with
  | nil => simp [extractEvents]
  | cons c cs ih =>
    simp only [extractEvents, List.map_cons, List.filterMap_cons] at ih ⊢
    exact ih

theorem extractEvents_extracts (l : List (Nat × ℚ)) (ex : ℚ → Bool) :
    extractEvents (l.map fun ip => Ev.extract ip.2 (ex ip.2))
      = l.map fun ip => (ip.2, ex ip.2) := by
  induction l with
  | nil => simp [extractEvents]
  | cons ip rest ih =>
    simp only [extractEvents, List.map_cons, List.filterMap_cons] at ih ⊢
    rw [ih]

theorem extractEvents_photos {α : Type} (g : α → Path) (l : List α) :
    extractEvents (l.map fun t => Ev.replyPhoto (g t) "Thumbnail") = [] := by
  induction l with
  | nil => simp [extractEvents]
  | cons t rest ih =>
    simp only [extractEvents, List.map_cons, List.filterMap_cons] at ih ⊢
    exact ih

theorem extractEvents_persist (ud : UserData) (tr : List Ev) :
    extractEvents (.persist ud :: tr) = extractEvents tr := by
  simp [extractEvents]

theorem extractEvents_reply (t : String) (tr : List Ev) :
    extractEvents (.reply t :: tr) = extractEvents tr := by
  simp [extractEvents]

theorem extractEvents_edit (t : String) (tr : List Ev) :
    extractEvents (.editMessage t :: tr) = extractEvents tr := by
  simp [extractEvents]

theorem extractEvents_append (a b : List Ev) :
    extractEvents (a ++ b) = extractEvents a ++ extractEvents b := by
  simp [extractEvents, List.filterMap_append]

theorem extractEvents_nil : extractEvents [] = [] := by simp [extractEvents]

/-- Claim C6: after a successful acquisition, thumbnails are extracted at
exactly the five fixed relative positions 10, 25, 50, 75 and 90 percent of
the duration, each independently: the run performs exactly one extraction
per fixed position, carrying the own oracle outcome of that position, and the
candidate list is exactly the list of successful positions (in particular,
3 candidates when 2 of the 5 positions fail); when zero positions succeed
the handler reports the acquisition failed and ends, the user_data entry is
removed, and no file below the temp directory of the download (the video
included) survives. -/
theorem C6_thumbnail_extraction (st : BotState) (uid : Nat) (msgSize : Nat)
    (fileId tdir : String) (fileInfoSize : Nat) (chunks : List Nat)
    (ex : ℚ → Bool)
    (huid : uid = ADMIN_USER_ID)
    (hmsg : ¬ msgSize > MAX_FILE_SIZE)
    (hfi : ¬ fileInfoSize > MAX_FILE_SIZE) :
    extractEvents (process_video st uid true msgSize fileId tdir fileInfoSize
        chunks true ex).2.1 = positions.map (fun p => (p, ex p)) ∧
    (thumbPaths tdir fileId ex).length = (positions.filter ex).length ∧
    (thumbPaths tdir fileId ex ≠ [] →
      lookupUser (process_video st uid true msgSize fileId tdir fileInfoSize
          chunks true ex).1.user_data uid
        = some ⟨some ([TEMP_FOLDER, tdir] ++ [fileId ++ ".mp4"]),
            thumbPaths tdir fileId ex, none, none, none, false⟩ ∧
      (process_video st uid true msgSize fileId tdir fileInfoSize chunks true
          ex).2.2 = WAITING_FOR_THUMBNAIL_SELECTION) ∧
    (thumbPaths tdir fileId ex = [] →
      lookupUser (process_video st uid true msgSize fileId tdir fileInfoSize
          chunks true ex).1.user_data uid = none ∧
      (process_video st uid true msgSize fileId tdir fileInfoSize chunks true
          ex).2.2 = END ∧
      ∀ q ∈ (process_video st uid true msgSize fileId tdir fileInfoSize chunks
          true ex).1.files, ¬ [TEMP_FOLDER, tdir] <+: q) := by
  subst huid
  have hext := extractLoop_eq [TEMP_FOLDER, tdir] fileId ex positions.enum
  simp only [List.enum, List.cons_append, List.nil_append] at hext
  have hlen : (thumbPaths tdir fileId ex).length
      = (positions.filter ex).length := by
    simp [thumbPaths, List.enum, enumFrom_filter_length]
  by_cases hth : thumbPaths tdir fileId ex = []
  all_goals
    have hth2 := hth
    simp only [thumbPaths, List.enum, List.cons_append, List.nil_append] at hth2
  · refine ⟨?_, hlen, fun hne => absurd hth hne, fun _ => ?_⟩
    · simp [process_video, download_large_file_with_progress, hmsg, hfi,
        hext, List.enum, hth2]
      simp only [extractEvents_reply, extractEvents_edit, extractEvents_persist,
        extractEvents_append, extractEvents_writes, extractEvents_extracts,
        extractEvents_try_delete, extractEvents_nil,
        List.nil_append, List.append_nil]
      exact enumFrom_map_snd_pair (fun p => (p, ex p)) positions 0
    · simp [process_video, download_large_file_with_progress, hmsg, hfi,
        hext, List.enum, hth2, lookup_delUser_self, END]
      intro q hq
      exact rmtree_not_below _ _ q hq
  · refine ⟨?_, hlen, fun _ => ?_, fun heq => absurd heq hth⟩
    · simp [process_video, download_large_file_with_progress, hmsg, hfi,
        hext, List.enum, hth2]
      simp only [Function.comp_def, extractEvents_reply, extractEvents_edit,
        extractEvents_persist, extractEvents_append, extractEvents_writes,
        extractEvents_extracts, extractEvents_try_delete, extractEvents_photos,
        extractEvents_nil, List.nil_append, List.append_nil]
      exact enumFrom_map_snd_pair (fun p => (p, ex p)) positions 0
    · simp [process_video, download_large_file_with_progress, hmsg, hfi,
        hext, List.enum, hth2, lookup_setUser_self, thumbPaths,
        WAITING_FOR_THUMBNAIL_SELECTION]

/-- Witness for C6: with an oracle failing exactly at the 25 and 75 percent
positions, the run still extracts at all five fixed positions and the
session ends up with exactly 3 candidates. -/
theorem C6_thumbnail_extraction_witness :
    extractEvents (process_video ⟨[], [], []⟩ ADMIN_USER_ID true 500 "vid"
        "d1" 500 [4096] true exDrop).2.1
      = [((1 : ℚ) / 10, true), (1 / 4, false), (1 / 2, true), (3 / 4, false),
         (9 / 10, true)] ∧
    (thumbPaths "d1" "vid" exDrop).length = 3 ∧
    lookupUser (process_video ⟨[], [], []⟩ ADMIN_USER_ID true 500 "vid" "d1"
        500 [4096] true exDrop).1.user_data ADMIN_USER_ID
      = some ⟨some ["temp", "d1", "vid.mp4"], thumbPaths "d1" "vid" exDrop,
          none, none, none, false⟩ := by
  have h := C6_thumbnail_extraction ⟨[], [], []⟩ ADMIN_USER_ID 500 "vid" "d1"
    500 [4096] exDrop rfl (by decide) (by decide)
  refine ⟨?_, ?_, ?_⟩
  · rw [h.1]; norm_num [positions, exDrop]
  · rw [h.2.1]; norm_num [positions, exDrop]
  · refine (h.2.2.1 ?_).1
    norm_num [thumbPaths, positions, exDrop, List.enum, List.enumFrom]
    exact List.cons_ne_nil _ _

/-- Claim C7: a numeric custom-position input in 0 to 100 inclusive is
accepted — the value is divided by 100, handed to the frame extractor, and
when the extraction succeeds the handler stores the custom thumbnail and
advances the workflow to the URL step — while any out-of-range or
non-numeric input is rejected with the state left exactly as it was and the
handler staying in the thumbnail-selection state, so the operator may retry
immediately. -/
theorem C7_custom_position (st : BotState) (uid : Nat) (sess : Session)
    (ex : ℚ → Bool)
    (huid : uid = ADMIN_USER_ID)
    (hs : lookupUser st.user_data uid = some sess)
    (hw : sess.waiting_for_custom_thumbnail = true) :
    (∀ (p : ℚ) (vp : Path), sess.video_path = some vp → 0 ≤ p → p ≤ 100 →
      ex (p / 100) = true →
      (handle_custom_thumbnail st uid (some p) ex).2.2 = WAITING_FOR_URL ∧
      lookupUser (handle_custom_thumbnail st uid (some p) ex).1.user_data uid
        = some { sess with
            thumbnail_path := some (vp.dropLast ++ [vp.getLastD "" ++ "_custom.jpg"]),
            waiting_for_custom_thumbnail := false }) ∧
    (∀ input : Option ℚ,
      (input = none ∨ ∃ p, input = some p ∧ (p < 0 ∨ 100 < p)) →
      (handle_custom_thumbnail st uid input ex).1 = st ∧
      (handle_custom_thumbnail st uid input ex).2.2
        = WAITING_FOR_THUMBNAIL_SELECTION) := by
  subst huid
  constructor
  · intro p vp hvp h0 h100 hex
    have hcond : ¬ (p < 0 ∨ p > 100) := by
      rw [not_or]
      exact ⟨not_lt.mpr h0, not_lt.mpr h100⟩
    simp [handle_custom_thumbnail, hs, hw, hvp, hcond, hex,
      lookup_setUser_self]
  · intro input hbad
    rcases hbad with rfl | ⟨p, rfl, hrange⟩
    · simp [handle_custom_thumbnail, hs, hw]
    · have hcond : p < 0 ∨ p > 100 := hrange
      simp [handle_custom_thumbnail, hs, hw, hcond]

/-- Witness for C7 (scenario E): input 150 is rejected with the state
unchanged, input 42 succeeds and advances to the URL step. -/
theorem C7_custom_position_witness :
    (handle_custom_thumbnail stCustom ADMIN_USER_ID (some 150) exAll).1
      = stCustom ∧
    (handle_custom_thumbnail stCustom ADMIN_USER_ID (some 150) exAll).2.2
      = WAITING_FOR_THUMBNAIL_SELECTION ∧
    (handle_custom_thumbnail stCustom ADMIN_USER_ID (some 42) exAll).2.2
      = WAITING_FOR_URL := by
  have h := C7_custom_position stCustom ADMIN_USER_ID sessCustom exAll rfl
    (by decide) (by decide)
  have hB := h.2 (some 150) (Or.inr ⟨150, rfl, Or.inr (by norm_num)⟩)
  have hA := h.1 42 ["temp", "d9", "v.mp4"] (by decide) (by norm_num)
    (by norm_num) (by decide)
  exact ⟨hB.1, hB.2, hA.1⟩

theorem try_delete_subset (fs : List Path) (p : Option Path) :
    ∀ a ∈ (try_delete_file fs p).1, a ∈ fs := by
  intro a ha
  cases p with
  | none => simpa [try_delete_file] using ha
  | some q =>
    by_cases h : q ∈ fs
    · simp [try_delete_file, h, removeFile, List.mem_filter] at ha
      exact ha.1
    · simpa [try_delete_file, h] using ha

theorem try_delete_self (fs : List Path) (q : Path) :
    q ∉ (try_delete_file fs (some q)).1 := by
  by_cases h : q ∈ fs
  · simp [try_delete_file, h, removeFile, List.mem_filter]
  · simp [try_delete_file, h]

theorem deleteAll_subset :
    ∀ (l : List Path) (fs : List Path), ∀ a ∈ (deleteAll fs l).1, a ∈ fs := by
  intro l
  induction l with
  | nil => intro fs a ha; simpa [deleteAll] using ha
  | cons p rest ih =>
    intro fs a ha
    rw [deleteAll] at ha
    exact try_delete_subset fs (some p) a (ih _ a ha)

theorem deleteAll_removes :
    ∀ (l : List Path) (fs : List Path), ∀ t ∈ l, t ∉ (deleteAll fs l).1 := by
  intro l
  induction l with
  | nil => intro fs t ht; simp at ht
  | cons p rest ih =>
    intro fs t ht
    rw [deleteAll]
    rcases List.mem_cons.mp ht with rfl | ht
    · intro hmem
      exact try_delete_self fs t (deleteAll_subset rest _ t hmem)
    · exact ih _ t ht

theorem cancel_no_session (st : BotState)
    (h : lookupUser st.user_data ADMIN_USER_ID = none) :
    cancel st ADMIN_USER_ID = (st, [.reply "Operation cancelled."], END) := by
  simp [cancel, h]

/-- Claim C8: cancellation is idempotent.  With a live session, cancel
deletes the session-owned files (the video, every candidate thumbnail and
the selected thumbnail) and removes the user_data entry; run again
immediately afterwards it is a no-op: it returns the state unchanged (so
user_data, post_history and the files are exactly as they were), emits only
the cancellation reply — no deletion, no persistence — and raises no
error. -/
theorem C8_cancel_idempotent (st : BotState) (uid : Nat) (sess : Session)
    (huid : uid = ADMIN_USER_ID)
    (hs : lookupUser st.user_data uid = some sess) :
    lookupUser (cancel st uid).1.user_data uid = none ∧
    (∀ vp, sess.video_path = some vp → vp ∉ (cancel st uid).1.files) ∧
    (∀ t ∈ sess.thumbnails, t ∉ (cancel st uid).1.files) ∧
    (∀ tp, sess.thumbnail_path = some tp →
      tp ∉ (cancel st uid).1.files) ∧
    cancel (cancel st uid).1 uid
      = ((cancel st uid).1, [.reply "Operation cancelled."], END) := by
  subst huid
  have hrun : (cancel st ADMIN_USER_ID).1 =
      { st with
        user_data := delUser st.user_data ADMIN_USER_ID,
        files := (try_delete_file
          (deleteAll (try_delete_file st.files sess.video_path).1
            sess.thumbnails).1 sess.thumbnail_path).1 } := by
    simp [cancel, hs]
  have hlook : lookupUser (cancel st ADMIN_USER_ID).1.user_data ADMIN_USER_ID
      = none := by
    rw [hrun]
    exact lookup_delUser_self st.user_data ADMIN_USER_ID
  refine ⟨hlook, ?_, ?_, ?_, ?_⟩
  · intro vp hvp
    rw [hrun, hvp]
    intro hmem
    have h1 := try_delete_subset _ _ vp hmem
    have h2 := deleteAll_subset _ _ vp h1
    exact try_delete_self st.files vp h2
  · intro t ht
    rw [hrun]
    intro hmem
    have h1 := try_delete_subset _ _ t hmem
    exact deleteAll_removes sess.thumbnails _ t ht h1
  · intro tp htp
    rw [hrun, htp]
    exact try_delete_self _ tp
  · exact cancel_no_session _ hlook

/-- Witness for C8 at a concrete state: the first cancel destroys the
session and its files; the second is a pure no-op. -/
theorem C8_cancel_idempotent_witness :
    lookupUser stFull.user_data ADMIN_USER_ID = some sessFull ∧
    lookupUser (cancel stFull ADMIN_USER_ID).1.user_data ADMIN_USER_ID
      = none ∧
    ["temp", "d7", "v.mp4"] ∉ (cancel stFull ADMIN_USER_ID).1.files ∧
    cancel (cancel stFull ADMIN_USER_ID).1 ADMIN_USER_ID
      = ((cancel stFull ADMIN_USER_ID).1, [.reply "Operation cancelled."],
         END) := by
  have h := C8_cancel_idempotent stFull ADMIN_USER_ID sessFull rfl (by decide)
  exact ⟨by decide, h.1, h.2.1 ["temp", "d7", "v.mp4"] (by decide),
    h.2.2.2.2⟩

theorem processBatch_eq (b : List UserDoc) :
    processBatch b = (sentCount b, failCount b, sendTrace b) := by
  induction b with
  | nil => simp [processBatch, sentCount, failCount, sendTrace]
  | cons u rest ih =>
    rcases hu : u.userId with _ | n
    · simp [processBatch, hu, ih, sentCount, failCount, sendTrace, truthySend]
    · by_cases hz : n = 0
      · simp [processBatch, hu, hz, ih, sentCount, failCount, sendTrace,
          truthySend]
      · by_cases hok : u.sendOk = true
        · simp [processBatch, hu, hz, hok, ih, sentCount, failCount,
            sendTrace, truthySend]
        · simp [processBatch, hu, hz, hok, ih, sentCount, failCount,
            sendTrace, truthySend]

theorem bmLoop_completes (bs d : Nat) :
    ∀ (rest batch : List UserDoc), batch.length + rest.length < bs →
      bmLoop bs d batch rest =
        (sentCount (batch ++ rest), failCount (batch ++ rest),
         sendTrace (batch ++ rest), false) := by
  intro rest
  induction rest with
  | nil =>
    intro batch _
    simp [bmLoop, processBatch_eq]
  | cons u rs ih =>
    intro batch hlen
    have hfull : ¬ bs ≤ (batch ++ [u]).length := by
      simp only [List.length_append, List.length_cons, List.length_nil]
      simp only [List.length_cons] at hlen
      omega
    simp only [bmLoop, hfull, if_neg, if_false]
    have hgroup : batch ++ u :: rs = (batch ++ [u]) ++ rs := by simp
    rw [hgroup]
    refine ih (batch ++ [u]) ?_
    simp only [List.length_append, List.length_cons, List.length_nil]
    simp only [List.length_cons] at hlen
    omega

theorem bmLoop_raises (bs d : Nat) :
    ∀ (rest batch : List UserDoc), batch.length < bs →
      bs ≤ batch.length + rest.length →
      bmLoop bs d batch rest =
        (sentCount ((batch ++ rest).take bs),
         failCount ((batch ++ rest).take bs),
         sendTrace ((batch ++ rest).take bs) ++ [.nameError], true) := by
  intro rest
  induction rest with
  | nil =>
    intro batch hlt hge
    simp only [List.length_nil, Nat.add_zero] at hge
    omega
  | cons u rs ih =>
    intro batch hlt hge
    by_cases hfull : bs ≤ (batch ++ [u]).length
    · have hbs : (batch ++ [u]).length = bs := by
        simp only [List.length_append, List.length_cons, List.length_nil]
          at hfull ⊢
        omega
      have htake : (batch ++ u :: rs).take bs = batch ++ [u] := by
        have hgroup : batch ++ u :: rs = (batch ++ [u]) ++ rs := by simp
        rw [hgroup, ← hbs, List.take_left]
      simp only [bmLoop, hfull, if_pos, htake, processBatch_eq]
    · simp only [bmLoop, hfull, if_neg, if_false]
      have hgroup : batch ++ u :: rs = (batch ++ [u]) ++ rs := by simp
      rw [hgroup]
      refine ih (batch ++ [u]) ?_ ?_
      · simp only [List.length_append, List.length_cons, List.length_nil]
          at hfull ⊢
        omega
      · simp only [List.length_append, List.length_cons, List.length_nil]
        simp only [List.length_cons] at hge
        omega

/-- Claim C9, settled against the code at its failing input: main.py never
imports asyncio (its imports are at lines 1-17), so the inter-batch
statement `await asyncio.sleep(delay)` (line 310) raises NameError as soon
as the first batch of 100 recipients has been processed.  Below 100
recipients no batch ever fills and broadcast_message does return the
aggregate with per-recipient isolation; at 100 or more recipients exactly
the first 100 recipients are attempted, the NameError aborts every later
batch, and no aggregate is ever returned — in particular for the
250-recipient scenario the result is not the claimed total 250 / sent 249 /
failed 1 but no result at all. -/
theorem C9_broadcast_name_error (users : List UserDoc) :
    (users.length < 100 →
      broadcast_message users 100 1
        = (some ⟨true, users.length, sentCount users, failCount users⟩,
           sendTrace users)) ∧
    (100 ≤ users.length →
      broadcast_message users 100 1
        = (none, sendTrace (users.take 100) ++ [.nameError])) ∧
    (broadcast_message users250 100 1).1 = none ∧
    (broadcast_message users250 100 1).1 ≠ some ⟨true, 250, 249, 1⟩ ∧
    (broadcast_message users250 100 1).2
      = sendTrace (users250.take 100) ++ [.nameError] := by
  have h250 : users250.length = 250 := by simp [users250]
  have hcrash : broadcast_message users250 100 1
      = (none, sendTrace (users250.take 100) ++ [.nameError]) := by
    have hr := bmLoop_raises 100 1 users250 [] (by simp) (by simp [h250])
    simp only [List.nil_append] at hr
    simp [broadcast_message, hr]
  refine ⟨?_, ?_, ?_, ?_, ?_⟩
  · intro hlen
    have hr := bmLoop_completes 100 1 users [] (by simpa using hlen)
    simp only [List.nil_append] at hr
    simp [broadcast_message, hr]
  · intro hlen
    have hr := bmLoop_raises 100 1 users [] (by simp) (by simpa using hlen)
    simp only [List.nil_append] at hr
    simp [broadcast_message, hr]
  · rw [hcrash]
  · rw [hcrash]
    simp
  · rw [hcrash]

/-- Claim C10: the administrative cleanup clears every live user session and
removes the files in the temporary folder, but leaves the post-history list
untouched and preserves the durable history thumbnail subdirectory: under
the invariant that add_to_post_history itself maintains (every recorded
thumbnail is an existing file below TEMP_FOLDER/history), every post-history
entry and its saved thumbnail copy still exist after cleanup, while every
surviving file below TEMP_FOLDER lies below TEMP_FOLDER/history. -/
theorem C10_cleanup_preserves_history (st : BotState) (uid : Nat)
    (huid : uid = ADMIN_USER_ID)
    (hinv : histInvB st = true) :
    (cleanup_command st uid).1.post_history = st.post_history ∧
    (cleanup_command st uid).1.user_data = [] ∧
    (∀ e ∈ st.post_history, ∀ p, e.thumbnail_path = some p →
      p ∈ (cleanup_command st uid).1.files) ∧
    (∀ q ∈ (cleanup_command st uid).1.files,
      [TEMP_FOLDER] <+: q → historyDir <+: q) ∧
    (∀ (channel caption url : String) (tp : Option Path) (ts : String)
        (cOk : Bool),
      histInvB (add_to_post_history st channel caption url tp ts cOk).1
        = true) := by
  subst huid
  have hrun : (cleanup_command st ADMIN_USER_ID).1 =
      { st with
        user_data := [],
        files := st.files.filter
          (fun p =>
            decide (¬ [TEMP_FOLDER] <+: p) || decide (historyDir <+: p)) } := by
    simp [cleanup_command]
  simp only [histInvB, List.all_eq_true] at hinv
  refine ⟨by rw [hrun], by rw [hrun], ?_, ?_, ?_⟩
  · intro e he p hp
    have hi := hinv e he
    rw [hp] at hi
    simp only [Bool.and_eq_true, decide_eq_true_eq] at hi
    rw [hrun]
    simp only [List.mem_filter, Bool.or_eq_true, decide_eq_true_eq]
    exact ⟨hi.2, Or.inr hi.1⟩
  · intro q hq htemp
    rw [hrun] at hq
    simp only [List.mem_filter, Bool.or_eq_true, decide_eq_true_eq] at hq
    rcases hq.2 with hnot | hhist
    · exact absurd htemp hnot
    · exact hhist
  · intro channel caption url tp ts cOk
    simp only [histInvB, List.all_eq_true, add_to_post_history]
    intro e he
    rcases List.mem_append.mp he with hold | hnew
    · have hi := hinv e hold
      rcases he2 : e.thumbnail_path with _ | p
      · simp
      · rw [he2] at hi
        simp only [Bool.and_eq_true, decide_eq_true_eq] at hi ⊢
        rcases tp with _ | q
        · exact ⟨hi.1, hi.2⟩
        · by_cases hc : q ∈ st.files ∧ cOk = true
          · simp only [hc, if_pos]
            exact ⟨hi.1, List.mem_cons_of_mem _ hi.2⟩
          · simp only [hc, if_neg, if_false]
            exact ⟨hi.1, hi.2⟩
    · simp only [List.mem_singleton] at hnew
      subst hnew
      rcases tp with _ | q
      · simp
      · by_cases hc : q ∈ st.files ∧ cOk = true
        · simp [hc]
        · simp [hc]

/-- Witness for C10 at a concrete state with one recorded post: cleanup
leaves the post-history entry in place and its history thumbnail copy still
exists afterwards. -/
theorem C10_cleanup_preserves_history_witness :
    histInvB stHist = true ∧
    (cleanup_command stHist ADMIN_USER_ID).1.post_history
      = stHist.post_history ∧
    (cleanup_command stHist ADMIN_USER_ID).1.user_data = [] ∧
    ["temp", "history", "thumb_20240101.jpg"]
      ∈ (cleanup_command stHist ADMIN_USER_ID).1.files := by
  have h := C10_cleanup_preserves_history stHist ADMIN_USER_ID rfl (by decide)
  refine ⟨by decide, h.1, h.2.1, ?_⟩
  exact h.2.2.1
    ⟨"20240101", MOVIES_CHANNEL, "A caption", "https://example.com/post",
     some ["temp", "history", "thumb_20240101.jpg"]⟩
    (by decide) ["temp", "history", "thumb_20240101.jpg"] (by decide)

end Bot123
